import Mathlib

/-!
Verification development for the scrypted-frigate-bridge media-delivery and
stream-discovery subsystem (src/main.ts and src/camera.ts).

The TypeScript code is shallowly embedded: mutable state (the VOD URL cache,
the configuration caches, camera storage) is passed explicitly, and every
suspension point of the single-threaded cooperative runtime (an `await` on an
upstream HTTP call) is modelled as a boundary between atomic steps.  Fallible
operations are embedded as `Except`, and the outcomes of external calls
(axios fetches, local ffprobe, storage) are supplied as parameters.
-/

set_option maxHeartbeats 1000000

/-! ## Resolution cache (`getVodUrlForEvent`, src/main.ts lines 21-67)

The cache entry for one key; `inFlight` holds the identifier of the pending
promise (the map value object is mutated in place by the source, and is never
replaced once stored, so a single mutable record per key is faithful). -/

structure VodEntry where
  vodUrl : Option String
  fetchedAt : Option Nat
  inFlight : Option Nat
deriving Repr, DecidableEq

/-- `VOD_URL_CACHE_TTL_MS = 5 * 60 * 1000` (src/main.ts line 28). -/
def VOD_URL_CACHE_TTL_MS : Nat := 5 * 60 * 1000

/-- The freshness test at src/main.ts line 40:
`cached?.vodUrl && cached.fetchedAt && now - cached.fetchedAt < TTL`.
JS truthiness makes an empty string url or a zero timestamp count as absent.
With JS numbers, `now - fetchedAt` may be negative and is then `< TTL`;
truncated `Nat` subtraction gives `0 < TTL` in exactly those cases, so the
`Bool` agrees with the source on all inputs. -/
def isFresh (e : VodEntry) (now : Nat) : Bool :=
  match e.vodUrl, e.fetchedAt with
  | some u, some t => u != "" && t != 0 && decide (now - t < VOD_URL_CACHE_TTL_MS)
  | _, _ => false

instance {ε α : Type} [DecidableEq ε] [DecidableEq α] : DecidableEq (Except ε α) := fun x y =>
  match x, y with
  | .ok a, .ok b =>
    if h : a = b then .isTrue (by rw [h]) else .isFalse (fun hh => by cases hh; exact h rfl)
  | .ok _, .error _ => .isFalse (fun hh => by cases hh)
  | .error _, .ok _ => .isFalse (fun hh => by cases hh)
  | .error e, .error f =>
    if h : e = f then .isTrue (by rw [h]) else .isFalse (fun hh => by cases hh; exact h rfl)

/-- State of the cache system restricted to one cache key: the entry stored in
`vodUrlCache` for that key (if any), the table of promises created for the key
(index = promise id, `none` = still pending), and the number of upstream
event-metadata fetches started so far. -/
structure VodSys where
  entry : Option VodEntry
  promises : List (Option (Except String String))
  upstreamCalls : Nat
deriving Repr, DecidableEq

/-- Local state of one caller of `getVodUrlForEvent`. -/
inductive CallerPhase where
  | awaiting (pid : Nat)
  | done (r : Except String String)
deriving Repr, DecidableEq

/-- The slow path of `getVodUrlForEvent` (src/main.ts lines 43-63): store the
entry back in the map, start the upstream computation only when no promise is
in flight (the async IIFE issues the axios request synchronously on creation,
which is the upstream call), then capture the in-flight promise and suspend
on it.  Runs atomically: the source contains no `await` inside this span. -/
def vodEnterSlow (e : VodEntry) (s : VodSys) : VodSys × CallerPhase :=
  match e.inFlight with
  | some pid => ({ s with entry := some e }, .awaiting pid)
  | none =>
    let pid := s.promises.length
    ({ entry := some { e with inFlight := some pid },
       promises := s.promises ++ [none],
       upstreamCalls := s.upstreamCalls + 1 }, .awaiting pid)

/-- The synchronous prefix of a `getVodUrlForEvent` call (src/main.ts lines
38-63): return the cached URL when fresh, otherwise take the slow path. -/
def vodEnter (now : Nat) (s : VodSys) : VodSys × CallerPhase :=
  match s.entry with
  | some e =>
    if isFresh e now then (s, .done (.ok (e.vodUrl.getD "")))
    else vodEnterSlow e s
  | none => vodEnterSlow ⟨none, none, none⟩ s

/-- Completion of the upstream fetch for promise `pid` at time `tc` (the
continuation after `await axios.get`, src/main.ts lines 49-58): on success the
closed-over entry's `vodUrl`/`fetchedAt` are written and the promise resolves
with the URL; on failure the promise rejects and the entry is untouched. -/
def vodComplete (pid : Nat) (outcome : Except String String) (tc : Nat)
    (s : VodSys) : VodSys :=
  match outcome with
  | .ok url =>
    { s with
      entry := s.entry.map (fun e => { e with vodUrl := some url, fetchedAt := some tc }),
      promises := s.promises.set pid (some (.ok url)) }
  | .error err =>
    { s with promises := s.promises.set pid (some (.error err)) }

/-- Resumption of a suspended caller (src/main.ts lines 62-66): once the
awaited promise is settled, the `finally` clears the entry's in-flight marker
unconditionally and the settled result is returned or rethrown.  A caller
whose promise is still pending cannot resume (stutters). -/
def vodResume (p : CallerPhase) (s : VodSys) : VodSys × CallerPhase :=
  match p with
  | .awaiting pid =>
    match s.promises.getD pid none with
    | some r =>
      ({ s with entry := s.entry.map (fun e => { e with inFlight := none }) }, .done r)
    | none => (s, p)
  | .done _ => (s, p)

/-- One complete `getVodUrlForEvent` call with no interleaved callers: enter at
time `now`; if the caller suspended, the upstream call finishes at time `tc`
with `outcome` and the caller resumes. -/
def vodRunSingle (now tc : Nat) (outcome : Except String String) (s : VodSys) :
    VodSys × CallerPhase :=
  match vodEnter now s with
  | (s1, .done r) => (s1, .done r)
  | (s1, .awaiting pid) =>
    let s2 := vodComplete pid outcome tc s1
    vodResume (.awaiting pid) s2

/-- Two concurrent `getVodUrlForEvent` calls for the same key: caller A enters
at `t1`, caller B enters at `t2` while A's computation is still pending, the
upstream fetch completes at `tc` with URL `url`, and the two callers resume in
either order (`resumeAFirst`).  These are all the interleavings the
single-threaded runtime admits for this scenario. -/
def vodRunPair (t1 t2 tc : Nat) (url : String) (resumeAFirst : Bool)
    (s : VodSys) : VodSys × CallerPhase × CallerPhase :=
  match vodEnter t1 s with
  | (s1, .done rA) => (s1, .done rA, .done rA)
  | (s1, .awaiting pa) =>
    match vodEnter t2 s1 with
    | (s2, .done rB) => (s2, .awaiting pa, .done rB)
    | (s2, .awaiting pb) =>
      let s3 := vodComplete pa (.ok url) tc s2
      if resumeAFirst then
        let (s4, pA) := vodResume (.awaiting pa) s3
        let (s5, pB) := vodResume (.awaiting pb) s4
        (s5, pA, pB)
      else
        let (s4, pB) := vodResume (.awaiting pb) s3
        let (s5, pA) := vodResume (.awaiting pa) s4
        (s5, pA, pB)

/-- Construction of the manifest URL from the fetched event metadata
(src/main.ts line 55). -/
def buildVodUrl (origin camera startTime endTime : String) : String :=
  origin ++ "/vod/" ++ camera ++ "/start/" ++ startTime ++ "/end/" ++ endTime ++ "/index.m3u8"

/-- An entry from which a fresh computation may start: absent, or present with
no in-flight promise and stale at both considered times. -/
def vodStartable (oe : Option VodEntry) (t1 t2 : Nat) : Prop :=
  match oe with
  | none => True
  | some e => e.inFlight = none ∧ isFresh e t1 = false ∧ isFresh e t2 = false

/-! ## Helper lemmas for the promise table -/

theorem promises_set_concat {α : Type} (ps : List α) (x y : α) :
    (ps ++ [x]).set ps.length y = ps ++ [y] := by
  induction ps with
  | nil => rfl
  | cons a t ih => simp [List.set, ih]

theorem promises_getD_concat {α : Type} (ps : List α) (y d : α) :
    (ps ++ [y]).getD ps.length d = y := by
  induction ps with
  | nil => rfl
  | cons a t ih => simp [List.getD, ih]

theorem isFresh_set_inFlight (e : VodEntry) (x : Option Nat) (now : Nat) :
    isFresh { e with inFlight := x } now = isFresh e now := by
  cases e
  rfl

/-- C1: single-flight resolution.  With no fresh cached value, a first caller
entering at `t1` starts the upstream computation, a second caller entering at
`t2` while it is in flight joins the same promise; after the upstream fetch
completes with `url`, both callers return `url` and exactly one upstream call
was made, for either resumption order. -/
theorem getVodUrlForEvent_singleFlight
    (s : VodSys) (t1 t2 tc : Nat) (url : String) (order : Bool)
    (h : vodStartable s.entry t1 t2) :
    (vodRunPair t1 t2 tc url order s).2.1 = .done (.ok url) ∧
    (vodRunPair t1 t2 tc url order s).2.2 = .done (.ok url) ∧
    (vodRunPair t1 t2 tc url order s).1.upstreamCalls = s.upstreamCalls + 1 := by
  cases hs : s.entry with
  | none =>
    cases order <;>
      simp [vodRunPair, vodEnter, hs, vodEnterSlow, isFresh, vodComplete,
        promises_set_concat, vodResume, promises_getD_concat]
  | some e =>
    rw [hs] at h
    obtain ⟨h1, h2, h3⟩ :=
      (h : e.inFlight = none ∧ isFresh e t1 = false ∧ isFresh e t2 = false)
    cases order <;>
      simp [vodRunPair, vodEnter, hs, h2, vodEnterSlow, h1, isFresh_set_inFlight,
        h3, vodComplete, promises_set_concat, vodResume, promises_getD_concat]

theorem getVodUrlForEvent_singleFlight_witness :
    (vodRunPair 1 2 3 (buildVodUrl "http://frigate:5000" "cam" "10.5" "20.5") true
        ⟨none, [], 0⟩).2.1
      = .done (.ok (buildVodUrl "http://frigate:5000" "cam" "10.5" "20.5")) ∧
    (vodRunPair 1 2 3 (buildVodUrl "http://frigate:5000" "cam" "10.5" "20.5") true
        ⟨none, [], 0⟩).2.2
      = .done (.ok (buildVodUrl "http://frigate:5000" "cam" "10.5" "20.5")) ∧
    (vodRunPair 1 2 3 (buildVodUrl "http://frigate:5000" "cam" "10.5" "20.5") true
        ⟨none, [], 0⟩).1.upstreamCalls = (⟨none, [], 0⟩ : VodSys).upstreamCalls + 1 :=
  getVodUrlForEvent_singleFlight ⟨none, [], 0⟩ 1 2 3
    (buildVodUrl "http://frigate:5000" "cam" "10.5" "20.5") true trivial

/-- C2: TTL freshness.  A call that finds a cached URL with a timestamp whose
age is under the TTL returns it with no state change and no upstream call;
a call that finds a stale entry with no in-flight computation performs exactly
one upstream computation and returns its result, refreshing the entry. -/
theorem getVodUrlForEvent_ttl
    (s : VodSys) (e : VodEntry) (u : String) (t now tc : Nat) (url : String)
    (hs : s.entry = some e) :
    (e.vodUrl = some u → e.fetchedAt = some t → u ≠ "" → t ≠ 0 →
      now - t < VOD_URL_CACHE_TTL_MS →
      vodEnter now s = (s, .done (.ok u))) ∧
    (isFresh e now = false → e.inFlight = none →
      vodRunSingle now tc (.ok url) s =
        ({ entry := some ⟨some url, some tc, none⟩,
           promises := s.promises ++ [some (.ok url)],
           upstreamCalls := s.upstreamCalls + 1 }, .done (.ok url))) := by
  constructor
  · intro hu ht hne hz hlt
    have hf : isFresh e now = true := by
      simp [isFresh, hu, ht, bne_iff_ne, hne, hz, hlt]
    simp [vodEnter, hs, hf, hu]
  · intro hf hin
    simp [vodRunSingle, vodEnter, hs, hf, vodEnterSlow, hin, vodComplete,
      promises_set_concat, vodResume, promises_getD_concat]

theorem getVodUrlForEvent_ttl_witness :
    vodEnter 1500 ⟨some ⟨some "http://f/vod/a/index.m3u8", some 1000, none⟩, [], 0⟩
      = (⟨some ⟨some "http://f/vod/a/index.m3u8", some 1000, none⟩, [], 0⟩,
         .done (.ok "http://f/vod/a/index.m3u8")) ∧
    vodRunSingle 400000 400123 (.ok "http://f/vod/b/index.m3u8")
        ⟨some ⟨some "http://f/vod/a/index.m3u8", some 1000, none⟩, [], 0⟩
      = ({ entry := some ⟨some "http://f/vod/b/index.m3u8", some 400123, none⟩,
           promises := [] ++ [some (.ok "http://f/vod/b/index.m3u8")],
           upstreamCalls := 0 + 1 }, .done (.ok "http://f/vod/b/index.m3u8")) :=
  ⟨(getVodUrlForEvent_ttl ⟨some ⟨some "http://f/vod/a/index.m3u8", some 1000, none⟩, [], 0⟩
      ⟨some "http://f/vod/a/index.m3u8", some 1000, none⟩
      "http://f/vod/a/index.m3u8" 1000 1500 0 "" rfl).1
      rfl rfl (by decide) (by decide) (by decide),
   (getVodUrlForEvent_ttl ⟨some ⟨some "http://f/vod/a/index.m3u8", some 1000, none⟩, [], 0⟩
      ⟨some "http://f/vod/a/index.m3u8", some 1000, none⟩
      "http://f/vod/a/index.m3u8" 1000 400000 400123 "http://f/vod/b/index.m3u8" rfl).2
      (by decide) rfl⟩

/-- C3: failure atomicity.  When the upstream computation fails, the error
propagates to the caller, the in-flight marker is cleared (and it is also
cleared on success), and the entry's previously cached `vodUrl`/`fetchedAt`
are left unchanged. -/
theorem getVodUrlForEvent_failure
    (s : VodSys) (e : VodEntry) (now tc : Nat) (err url : String)
    (hs : s.entry = some e) (hf : isFresh e now = false) (hin : e.inFlight = none) :
    vodRunSingle now tc (.error err) s =
      ({ entry := some ⟨e.vodUrl, e.fetchedAt, none⟩,
         promises := s.promises ++ [some (.error err)],
         upstreamCalls := s.upstreamCalls + 1 }, .done (.error err)) ∧
    (vodRunSingle now tc (.ok url) s).1.entry.map VodEntry.inFlight = some none ∧
    (vodRunSingle now tc (.error err) s).1.entry.map VodEntry.inFlight = some none := by
  refine ⟨?_, ?_, ?_⟩ <;>
    simp [vodRunSingle, vodEnter, hs, hf, vodEnterSlow, hin, vodComplete,
      promises_set_concat, vodResume, promises_getD_concat]

theorem getVodUrlForEvent_failure_witness :
    vodRunSingle 400000 400001 (.error "event fetch failed")
        ⟨some ⟨some "http://f/vod/prev/index.m3u8", some 1000, none⟩, [], 0⟩
      = ({ entry := some ⟨some "http://f/vod/prev/index.m3u8", some 1000, none⟩,
           promises := [] ++ [some (.error "event fetch failed")],
           upstreamCalls := 0 + 1 }, .done (.error "event fetch failed")) ∧
    (vodRunSingle 400000 400001 (.ok "http://f/vod/new/index.m3u8")
        ⟨some ⟨some "http://f/vod/prev/index.m3u8", some 1000, none⟩, [], 0⟩).1.entry.map
        VodEntry.inFlight = some none ∧
    (vodRunSingle 400000 400001 (.error "event fetch failed")
        ⟨some ⟨some "http://f/vod/prev/index.m3u8", some 1000, none⟩, [], 0⟩).1.entry.map
        VodEntry.inFlight = some none :=
  getVodUrlForEvent_failure
    ⟨some ⟨some "http://f/vod/prev/index.m3u8", some 1000, none⟩, [], 0⟩
    ⟨some "http://f/vod/prev/index.m3u8", some 1000, none⟩
    400000 400001 "event fetch failed" "http://f/vod/new/index.m3u8"
    rfl (by decide) rfl

/-! ## Streaming gateway (`onRequest`, src/main.ts lines 445-566)

The handler is embedded as a pure dispatch over the request's parsed query
parameters and path, with the outcomes of the external operations (device
lookup, `getVideoclipUrls`, the two `streamVideoclipFromUrl` calls,
`getVodUrlForEvent`, the thumbnail fetch) supplied in an environment record
(`.error m` models the operation throwing with message `m`).  Response bodies
are modelled structurally: each constructor carries exactly the data the
source interpolates into the corresponding body string.  `response = none`
models the code path that terminates the request without sending anything
(the `sendVideo` catch at src/main.ts lines 522-524).  `vodCalls` counts the
invocations of `getVodUrlForEvent`. -/

/-- JS truthiness of a nullable string (absent or empty is falsy). -/
def jsTruthyStr : Option String → Bool
  | some s => s != ""
  | none => false

/-- JS `toLowerCase` on the ASCII strings the handler compares (`'seg'`). -/
def jsToLowerCase (s : String) : String := ⟨s.data.map Char.toLower⟩

inductive RespBody where
  | missingParams (deviceId eventId : Option String)
  | deviceNotFound (deviceId : String)
  | streamed
  | thumbnailData
  | webhookError (msg : String)
  | notFound (path : String)
  | dispatchError (msg : String) (deviceId eventId : Option String) (url : String)
deriving Repr, DecidableEq

structure HandlerResult where
  response : Option (Nat × RespBody)
  vodCalls : Nat
deriving Repr, DecidableEq

/-- The request data `onRequest` dispatches on: the raw url, the `deviceId`,
`eventId` and `hls` query parameters, and component 5 of the url path (the
destructured `webhook`, `undefined` when the path is shorter). -/
structure WebhookRequest where
  url : String
  deviceId : Option String
  eventId : Option String
  webhook : Option String
  hls : Option String
deriving Repr, DecidableEq

/-- Outcomes of the external operations reachable from `onRequest`.
`devLookup` covers `this.videoclipsDevice.currentMixinsMap[deviceId]`
(`.ok true` = device found, `.ok false` = absent, `.error` = the access threw,
e.g. `videoclipsDevice` not yet constructed). -/
structure DispatchEnv where
  devLookup : Except String Bool
  videoclipUrls : Except String String
  segStream : Except String Unit
  vodResult : Except String String
  sendVideo : Except String Unit
  thumbFetch : Except String Unit
deriving Repr, DecidableEq

/-- Shallow embedding of `onRequest` (src/main.ts lines 445-566). -/
def onRequest (req : WebhookRequest) (env : DispatchEnv) : HandlerResult :=
  if !jsTruthyStr req.deviceId || !jsTruthyStr req.eventId then
    { response := some (400, .missingParams req.deviceId req.eventId), vodCalls := 0 }
  else
    match env.devLookup with
    | .error m =>
      { response := some (500, .dispatchError m req.deviceId req.eventId req.url),
        vodCalls := 0 }
    | .ok false =>
      { response := some (404, .deviceNotFound (req.deviceId.getD "")), vodCalls := 0 }
    | .ok true =>
      if req.webhook == some "videoclip" then
        match env.videoclipUrls with
        | .error m => { response := some (400, .webhookError m), vodCalls := 0 }
        | .ok _videoUrl =>
          if jsToLowerCase (req.hls.getD "") == "seg" then
            match env.segStream with
            | .error m => { response := some (400, .webhookError m), vodCalls := 0 }
            | .ok _ => { response := some (200, .streamed), vodCalls := 0 }
          else
            match env.vodResult with
            | .error m => { response := some (400, .webhookError m), vodCalls := 1 }
            | .ok _vodUrl =>
              match env.sendVideo with
              | .ok _ => { response := some (200, .streamed), vodCalls := 1 }
              | .error _ => { response := none, vodCalls := 1 }
      else if req.webhook == some "thumbnail" then
        match env.videoclipUrls with
        | .error m => { response := some (400, .webhookError m), vodCalls := 0 }
        | .ok _ =>
          match env.thumbFetch with
          | .error m => { response := some (400, .webhookError m), vodCalls := 0 }
          | .ok _ => { response := some (200, .thumbnailData), vodCalls := 0 }
      else
        { response := some (404, .notFound req.url), vodCalls := 0 }

/-- C4: a videoclip request whose `hls` parameter lowercases to `"seg"` never
invokes `getVodUrlForEvent`, whatever the outcomes of the other operations. -/
theorem onRequest_segment_no_vod (req : WebhookRequest) (env : DispatchEnv)
    (hw : req.webhook = some "videoclip")
    (hseg : jsToLowerCase (req.hls.getD "") = "seg") :
    (onRequest req env).vodCalls = 0 := by
  unfold onRequest
  split
  · rfl
  · split
    · rfl
    · rfl
    · rw [if_pos (by simp [hw])]
      split
      · rfl
      · rw [if_pos (by simp [hseg])]
        split <;> rfl

theorem onRequest_segment_no_vod_witness :
    (onRequest
      ⟨"/endpoint/x/y/public/videoclip?deviceId=d1&eventId=e1&hls=SEG",
        some "d1", some "e1", some "videoclip", some "SEG"⟩
      ⟨.ok true, .ok "http://f/clip.mp4", .ok (), .ok "http://f/vod/index.m3u8",
        .ok (), .ok ()⟩).vodCalls = 0 :=
  onRequest_segment_no_vod
    ⟨"/endpoint/x/y/public/videoclip?deviceId=d1&eventId=e1&hls=SEG",
      some "d1", some "e1", some "videoclip", some "SEG"⟩
    ⟨.ok true, .ok "http://f/clip.mp4", .ok (), .ok "http://f/vod/index.m3u8",
      .ok (), .ok ()⟩ rfl (by decide)

/-- C5 counterexample: a thumbnail request whose fetch throws is answered by
the inner catch (src/main.ts lines 541-548) with status 400 and no request
identifiers, not with status 500 as the claim states. -/
theorem onRequest_error_500_counterexample :
    (onRequest ⟨"/x/y/z/a/public/thumbnail", some "d1", some "e1", some "thumbnail", none⟩
      ⟨.ok true, .ok "http://f/clip.mp4", .ok (), .ok "u", .ok (),
        .error "Request failed with status code 502"⟩).response
      = some (400, .webhookError "Request failed with status code 502") ∧
    (onRequest ⟨"/x/y/z/a/public/thumbnail", some "d1", some "e1", some "thumbnail", none⟩
      ⟨.ok true, .ok "http://f/clip.mp4", .ok (), .ok "u", .ok (),
        .error "Request failed with status code 502"⟩).response.map Prod.fst
      ≠ some 500 := by
  constructor
  · rfl
  · decide

/-- C5 amended: with both identifiers present, an exception that escapes the
inner webhook try/catch (here: the device lookup throwing) yields status 500
with the error message and the request identifiers; an exception raised inside
the webhook branch handling is caught by the inner catch and yields status 400
with the error message only. -/
theorem onRequest_dispatch_errors (req : WebhookRequest) (env : DispatchEnv)
    (m u : String)
    (hid : jsTruthyStr req.deviceId = true) (hev : jsTruthyStr req.eventId = true) :
    (env.devLookup = .error m →
      (onRequest req env).response
        = some (500, .dispatchError m req.deviceId req.eventId req.url)) ∧
    (env.devLookup = .ok true → req.webhook = some "videoclip" →
      env.videoclipUrls = .error m →
      (onRequest req env).response = some (400, .webhookError m)) ∧
    (env.devLookup = .ok true → req.webhook = some "videoclip" →
      env.videoclipUrls = .ok u → jsToLowerCase (req.hls.getD "") = "seg" →
      env.segStream = .error m →
      (onRequest req env).response = some (400, .webhookError m)) ∧
    (env.devLookup = .ok true → req.webhook = some "videoclip" →
      env.videoclipUrls = .ok u → jsToLowerCase (req.hls.getD "") ≠ "seg" →
      env.vodResult = .error m →
      (onRequest req env).response = some (400, .webhookError m)) ∧
    (env.devLookup = .ok true → req.webhook = some "thumbnail" →
      env.videoclipUrls = .ok u → env.thumbFetch = .error m →
      (onRequest req env).response = some (400, .webhookError m)) := by
  refine ⟨?_, ?_, ?_, ?_, ?_⟩
  · intro hd
    simp [onRequest, hid, hev, hd]
  · intro hd hw hv
    simp [onRequest, hid, hev, hd, hw, hv]
  · intro hd hw hv hseg hss
    simp [onRequest, hid, hev, hd, hw, hv, hseg, hss]
  · intro hd hw hv hseg hvod
    simp [onRequest, hid, hev, hd, hw, hv, hseg, hvod]
  · intro hd hw hv ht
    simp [onRequest, hid, hev, hd, hw, hv, ht]

theorem onRequest_dispatch_errors_witness :
    (onRequest ⟨"/x/y/z/a/public/videoclip", some "d1", some "e1", some "videoclip", none⟩
      ⟨.error "Cannot read properties of undefined", .ok "u", .ok (), .ok "v", .ok (),
        .ok ()⟩).response
      = some (500, .dispatchError "Cannot read properties of undefined"
          (some "d1") (some "e1") "/x/y/z/a/public/videoclip") ∧
    (onRequest ⟨"/x/y/z/a/public/videoclip", some "d1", some "e1", some "videoclip", none⟩
      ⟨.ok true, .ok "u", .ok (), .error "Cannot read properties of undefined", .ok (),
        .ok ()⟩).response
      = some (400, .webhookError "Cannot read properties of undefined") :=
  ⟨(onRequest_dispatch_errors
      ⟨"/x/y/z/a/public/videoclip", some "d1", some "e1", some "videoclip", none⟩
      ⟨.error "Cannot read properties of undefined", .ok "u", .ok (), .ok "v", .ok (), .ok ()⟩
      "Cannot read properties of undefined" "u" (by decide) (by decide)).1 rfl,
   (onRequest_dispatch_errors
      ⟨"/x/y/z/a/public/videoclip", some "d1", some "e1", some "videoclip", none⟩
      ⟨.ok true, .ok "u", .ok (), .error "Cannot read properties of undefined", .ok (), .ok ()⟩
      "Cannot read properties of undefined" "u" (by decide) (by decide)).2.2.2.1
      rfl rfl rfl (by decide) rfl⟩

/-! ## JSON-like values (probe responses, configuration payloads)

`JVal` embeds the JSON data the bridge receives from the backend.  Numbers
are integers: every numeric constant the embedded code compares against
(`return_code === 1`) is integral, and the defensive parsers below record a
non-integral or unparsable coercion as `none` (= JS `NaN`/non-finite), which
the source treats identically to an absent value. -/

inductive JVal where
  | null
  | bool (b : Bool)
  | num (n : Int)
  | str (s : String)
  | arr (xs : List JVal)
  | obj (fields : List (String × JVal))

/-- JS property access `v.k` / `v[k]`: defined lookup on objects (first
binding wins, as in a JS object literal), `undefined` otherwise. -/
def JVal.get : JVal → String → Option JVal
  | .obj fs, k => fs.lookup k
  | _, _ => none

/-- Optional-chaining property access `v?.k`. -/
def jGet (v : Option JVal) (k : String) : Option JVal :=
  v.bind (fun x => JVal.get x k)

/-- JS truthiness of a possibly-undefined value. -/
def jTruthy : Option JVal → Bool
  | none => false
  | some .null => false
  | some (.bool b) => b
  | some (.num n) => n != 0
  | some (.str s) => s != ""
  | some (.arr _) => true
  | some (.obj _) => true

/-- `typeof v === 'object'` (true for null, arrays and plain objects). -/
def jIsObjectType : JVal → Bool
  | .null => true
  | .arr _ => true
  | .obj _ => true
  | _ => false

/-- `Array.isArray(v)`. -/
def isArr : JVal → Bool
  | .arr _ => true
  | _ => false

/-- `v[0]` of an array value (`undefined` otherwise, as for JS `data[0]`). -/
def arrFirst : JVal → Option JVal
  | .arr xs => xs.head?
  | _ => none

/-- `Object.values(v)[0]`: first element of an array, first field value of an
object. -/
def jFirstValue : JVal → Option JVal
  | .arr xs => xs.head?
  | .obj fs => (fs.map Prod.snd).head?
  | _ => none

/-- Nullish coalescing `a ?? b` with a defined right operand. -/
def jNullishD : Option JVal → JVal → JVal
  | none, b => b
  | some .null, b => b
  | some v, _ => v

/-- `'k' in v` field-presence test (objects only; the source only evaluates it
on entries of a `streams` list). -/
def jHasField (v : JVal) (k : String) : Bool :=
  match v with
  | .obj fs => fs.any (fun p => p.1 == k)
  | _ => false

/-- `typeof v === 'number'`. -/
def jIsNumber : Option JVal → Bool
  | some (.num _) => true
  | _ => false

/-- Digit run to a natural number. -/
def digitsVal (cs : List Char) : Nat :=
  cs.foldl (fun a c => a * 10 + (c.toNat - 48)) 0

/-- JS `Number(s)` on a string, as an optional integer (`none` = `NaN` or a
finite non-integral value; the embedded code only ever compares the coercion
against the integer 1, for which the two collapse).  Decimal notation only. -/
def jsNumericString (s : String) : Option Int :=
  let cs := (((s.data.dropWhile Char.isWhitespace).reverse).dropWhile Char.isWhitespace).reverse
  match cs with
  | [] => some 0
  | _ =>
    let sgn : Int := if cs.head? = some '-' then -1 else 1
    let cs1 := match cs with
      | '-' :: r => r
      | '+' :: r => r
      | r => r
    let ip := cs1.takeWhile Char.isDigit
    let rest := cs1.drop ip.length
    match rest with
    | [] => if ip.isEmpty then none else some (sgn * (digitsVal ip : Int))
    | '.' :: fr =>
      if fr.all Char.isDigit && !(ip.isEmpty && fr.isEmpty) then
        if fr.all (fun c => c = '0') && !ip.isEmpty then some (sgn * (digitsVal ip : Int))
        else none
      else none
    | _ => none

/-- JS `Number(v)` coercion (`none` = `NaN`/non-integral, see
`jsNumericString`).  A singleton array coerces through its element, as JS
does via `toString`. -/
def JVal.toNumber : JVal → Option Int
  | .null => some 0
  | .bool b => some (if b then 1 else 0)
  | .num n => some n
  | .str s => jsNumericString s
  | .arr [] => some 0
  | .arr [v] => v.toNumber
  | .arr (_ :: _ :: _) => none
  | .obj _ => none

/-- `Number(x)` on a possibly-undefined operand (`Number(undefined)` is
`NaN`). -/
def jsToNumber : Option JVal → Option Int
  | none => none
  | some v => v.toNumber

/-- `String(x ?? '')` as used by the probe normalizer's defensive parses. -/
def jsStringD : Option JVal → String
  | none => ""
  | some .null => ""
  | some (.str s) => s
  | some (.num n) => toString n
  | some (.bool b) => if b then "true" else "false"
  | some (.arr _) => ""
  | some (.obj _) => "[object Object]"

/-- `Number.parseFloat(s)`: longest decimal prefix after optional sign
(`none` = `NaN`). -/
def jsParseFloat (s : String) : Option Rat :=
  let cs := s.data.dropWhile Char.isWhitespace
  let sgn : Rat := if cs.head? = some '-' then -1 else 1
  let cs1 := match cs with
    | '-' :: r => r
    | '+' :: r => r
    | r => r
  let ip := cs1.takeWhile Char.isDigit
  let rest := cs1.drop ip.length
  let fr := match rest with
    | '.' :: r => r.takeWhile Char.isDigit
    | _ => []
  if ip.isEmpty && fr.isEmpty then none
  else some (sgn * ((digitsVal ip : Rat) + (digitsVal fr : Rat) / ((10 : Rat) ^ fr.length)))

/-- `Number.parseInt(s, 10)`: leading digit run after optional sign
(`none` = `NaN`). -/
def jsParseInt (s : String) : Option Int :=
  let cs := s.data.dropWhile Char.isWhitespace
  let sgn : Int := if cs.head? = some '-' then -1 else 1
  let cs1 := match cs with
    | '-' :: r => r
    | '+' :: r => r
    | r => r
  let ip := cs1.takeWhile Char.isDigit
  if ip.isEmpty then none else some (sgn * (digitsVal ip : Int))

/-! ## Probe normalizer (`ffprobeViaFrigate`, src/camera.ts lines 176-311)

The shape-locating cascade (lines 201-248) is a sequence of guarded early
returns; a block whose outer guard holds but whose inner alternatives all
fail falls through to the next block, so the cascade is an if-else chain
whose conditions each conjoin their block-entry guard.  Each guard is named
below so that the claim about unrecognized shapes can negate them one by
one. -/

def shapeG1 (d : JVal) : Bool :=
  isArr d && jTruthy (jGet (arrFirst d) "stdout") &&
    (jTruthy (jGet (jGet (arrFirst d) "stdout") "streams") ||
     jTruthy (jGet (jGet (arrFirst d) "stdout") "format"))

def shapeG2 (d : JVal) : Bool :=
  isArr d && (jTruthy (jGet (arrFirst d) "streams") || jTruthy (jGet (arrFirst d) "format"))

def shapeG3 (d : JVal) : Bool :=
  jTruthy (d.get "stdout") &&
    (jTruthy (jGet (d.get "stdout") "streams") || jTruthy (jGet (d.get "stdout") "format"))

def shapeG4 (d : JVal) : Bool :=
  jTruthy (d.get "streams") || jTruthy (d.get "format")

def shapeG5 (d : JVal) : Bool :=
  jTruthy (d.get "result") &&
    (jTruthy (jGet (d.get "result") "streams") || jTruthy (jGet (d.get "result") "format") ||
     jTruthy (jGet (d.get "result") "stdout"))

def shapeG6a (d : JVal) (url : String) : Bool :=
  jIsObjectType d && jTruthy (d.get url) && jTruthy (jGet (d.get url) "stdout") &&
    (jTruthy (jGet (jGet (d.get url) "stdout") "streams") ||
     jTruthy (jGet (jGet (d.get url) "stdout") "format"))

def shapeG6b (d : JVal) (url : String) : Bool :=
  jIsObjectType d && jTruthy (d.get url) &&
    (jTruthy (jGet (d.get url) "streams") || jTruthy (jGet (d.get url) "format"))

def shapeG6c (d : JVal) (url : String) : Bool :=
  jIsObjectType d && jTruthy (d.get url) && jTruthy (jGet (d.get url) "result")

def shapeG7a (d : JVal) : Bool :=
  jIsObjectType d && jTruthy (jGet (jFirstValue d) "stdout") &&
    (jTruthy (jGet (jGet (jFirstValue d) "stdout") "streams") ||
     jTruthy (jGet (jGet (jFirstValue d) "stdout") "format"))

def shapeG7b (d : JVal) : Bool :=
  jIsObjectType d &&
    (jTruthy (jGet (jFirstValue d) "streams") || jTruthy (jGet (jFirstValue d) "format"))

def shapeG7c (d : JVal) : Bool :=
  jIsObjectType d && jTruthy (jGet (jFirstValue d) "result")

/-- The `parsed` IIFE of `ffprobeViaFrigate` (src/camera.ts lines 201-248):
locate the embedded streams/format payload by trying the known envelope
shapes in source order, returning `{}` when none matches. -/
def locatePayload (odata : Option JVal) (url : String) : JVal :=
  match odata with
  | none => .obj []
  | some d =>
    if !jTruthy (some d) then .obj []
    else if shapeG1 d then (jGet (arrFirst d) "stdout").getD (.obj [])
    else if shapeG2 d then (arrFirst d).getD (.obj [])
    else if shapeG3 d then (d.get "stdout").getD (.obj [])
    else if shapeG4 d then d
    else if shapeG5 d then
      jNullishD (jGet (d.get "result") "stdout") ((d.get "result").getD (.obj []))
    else if shapeG6a d url then (jGet (d.get url) "stdout").getD (.obj [])
    else if shapeG6b d url then (d.get url).getD (.obj [])
    else if shapeG6c d url then
      jNullishD (jGet (jGet (d.get url) "result") "stdout")
        ((jGet (d.get url) "result").getD (.obj []))
    else if shapeG7a d then (jGet (jFirstValue d) "stdout").getD (.obj [])
    else if shapeG7b d then (jFirstValue d).getD (.obj [])
    else if shapeG7c d then
      jNullishD (jGet (jGet (jFirstValue d) "result") "stdout")
        ((jGet (jFirstValue d) "result").getD (.obj []))
    else .obj []

/-- Whether the raw response matches any of the known envelope shapes of the
cascade (falsy data matches none). -/
def matchesKnownShape (odata : Option JVal) (url : String) : Bool :=
  match odata with
  | none => false
  | some d =>
    jTruthy (some d) &&
      (shapeG1 d || shapeG2 d || shapeG3 d || shapeG4 d || shapeG5 d ||
       shapeG6a d url || shapeG6b d url || shapeG6c d url ||
       shapeG7a d || shapeG7b d || shapeG7c d)

/-- Modelled from the spec: `parseFraction` from src/utils.ts (the file is not
in the snapshot).  Spec section 4.2 item 4: frame rate is parsed from a
fraction string (`"30000/1001"` becomes a float; invalid or zero denominator
becomes absent); a plain number passes through. -/
def parseFraction : Option JVal → Option Rat
  | some (.num n) => some n
  | some (.str s) =>
    match s.splitOn "/" with
    | [a, b] =>
      if !a.data.isEmpty && a.data.all Char.isDigit &&
         !b.data.isEmpty && b.data.all Char.isDigit && digitsVal b.data != 0 then
        some ((digitsVal a.data : Rat) / (digitsVal b.data : Rat))
      else none
    | [a] =>
      if !a.data.isEmpty && a.data.all Char.isDigit then some (digitsVal a.data : Rat)
      else none
    | _ => none
  | _ => none

/-- Modelled from the spec: `toArray` from src/utils.ts (the file is not in
the snapshot); coerces the optional `streams` payload to a list: an array
as-is, an absent value as empty, any other value as a singleton. -/
def toArray : Option JVal → List JVal
  | none => []
  | some .null => []
  | some (.arr xs) => xs
  | some v => [v]

/-- Scheme extraction for the `protocol` field (src/camera.ts lines 272-280):
`new URL(url).protocol` without the trailing colon, with the
`/^([a-zA-Z][a-zA-Z0-9+.-]*):/` regex as fallback; the scheme is lowercased
as the URL parser does on the primary path. -/
def jsSchemeOf (url : String) : Option String :=
  match url.data with
  | [] => none
  | c :: rest =>
    if c.isAlpha then
      let body := rest.takeWhile (fun ch => ch.isAlphanum || ch = '+' || ch = '.' || ch = '-')
      match rest.drop body.length with
      | ':' :: _ => some ⟨(c :: body).map Char.toLower⟩
      | _ => none
    else none

structure FfprobeFormat where
  format_name : Option String
  format_long_name : Option String
  duration : Option Rat
  bit_rate : Option Int
deriving Repr, DecidableEq

structure FfprobeVideo where
  codec : Option String
  width : Option Int
  height : Option Int
  fps : Option Rat
  pix_fmt : Option String
  profile : Option String
  level : Option Int
deriving Repr, DecidableEq

structure FfprobeAudio where
  codec : Option String
  channels : Option Int
  sample_rate : Option Int
  bit_rate : Option Int
deriving Repr, DecidableEq

/-- `FfprobeSummary` (src/camera.ts lines 9-33); the three sub-records are
always present in the returned object, with every field optional. -/
structure FfprobeSummary where
  url : String
  protocol : Option String
  format : FfprobeFormat
  video : FfprobeVideo
  audio : FfprobeAudio
deriving Repr, DecidableEq

/-- A string-typed field (`typeof x === 'string' ? x : undefined`). -/
def jStrField (v : Option JVal) : Option String :=
  match v with
  | some (.str s) => some s
  | _ => none

/-- A number-typed field (`typeof x === 'number' ? x : undefined`). -/
def jNumField (v : Option JVal) : Option Int :=
  match v with
  | some (.num n) => some n
  | _ => none

/-- The summary construction of `ffprobeViaFrigate` from the located payload
(src/camera.ts lines 254-310). -/
def summarize (parsed : JVal) (url : String) : FfprobeSummary :=
  let streams := toArray (parsed.get "streams")
  let video := streams.find? (fun s =>
    (match s.get "codec_type" with
     | some (.str t) => t == "video"
     | _ => false) ||
    (jIsNumber (s.get "width") && jIsNumber (s.get "height")))
  let audio := streams.find? (fun s =>
    (match s.get "codec_type" with
     | some (.str t) => t == "audio"
     | _ => false) ||
    (!jHasField s "width" && !jHasField s "height"))
  let duration := jsParseFloat (jsStringD (jGet (parsed.get "format") "duration"))
  let bitRate := jsParseInt (jsStringD (jGet (parsed.get "format") "bit_rate"))
  let videoWidth := jsParseInt (jsStringD (jGet video "width"))
  let videoHeight := jsParseInt (jsStringD (jGet video "height"))
  let fps := match parseFraction (jGet video "avg_frame_rate") with
    | some q => some q
    | none => parseFraction (jGet video "r_frame_rate")
  let audioSampleRate := jsParseInt (jsStringD (jGet audio "sample_rate"))
  let audioChannels := jsParseInt (jsStringD (jGet audio "channels"))
  let audioBitRate := jsParseInt (jsStringD (jGet audio "bit_rate"))
  { url := url
    protocol := jsSchemeOf url
    format := {
      format_name := jStrField (jGet (parsed.get "format") "format_name")
      format_long_name := jStrField (jGet (parsed.get "format") "format_long_name")
      duration := duration
      bit_rate := bitRate }
    video := {
      codec := match jStrField (jGet video "codec_name") with
        | some s => some s
        | none => jStrField (jGet video "codec_long_name")
      width := videoWidth
      height := videoHeight
      fps := fps
      pix_fmt := jStrField (jGet video "pix_fmt")
      profile := jStrField (jGet video "profile")
      level := jNumField (jGet video "level") }
    audio := {
      codec := match jStrField (jGet audio "codec_name") with
        | some s => some s
        | none => jStrField (jGet audio "codec_long_name")
      channels := audioChannels
      sample_rate := audioSampleRate
      bit_rate := audioBitRate } }

/-- The definitive backend-side failure test (src/camera.ts lines 187-190):
the response is an array whose first entry's `return_code` coerces to the
finite number 1. -/
def hasFailureSignal (odata : Option JVal) : Bool :=
  match odata with
  | some (.arr xs) => jsToNumber (jGet xs.head? "return_code") == some 1
  | _ => false

/-- Shallow embedding of `ffprobeViaFrigate` (src/camera.ts lines 176-311).
`resData` is the backend response body (`res?.data`), `localProbe` the
outcome of the `ffprobeLocalJson` fallback.  Returns whether the local
fallback was attempted, and the summary or the thrown error message. -/
def ffprobeViaFrigate (resData : Option JVal) (url : String)
    (localProbe : Except String JVal) : Bool × Except String FfprobeSummary :=
  match resData with
  | some (.arr xs) =>
    if jsToNumber (jGet xs.head? "return_code") == some 1 then
      match localProbe with
      | .error e =>
        let stderrPart :=
          match jGet xs.head? "stderr" with
          | some (.str s) => if s.trim != "" then ": " ++ s.trim else ""
          | _ => ""
        (true, .error ("Frigate ffprobe failed (return_code=1) for " ++ url ++ stderrPart ++
          ". Local ffprobe fallback failed: " ++ e))
      | .ok d => (true, .ok (summarize (locatePayload (some d) url) url))
    else (false, .ok (summarize (locatePayload resData url) url))
  | _ => (false, .ok (summarize (locatePayload resData url) url))

/-- C8: when the backend response is an array whose first entry's
`return_code` coerces to the number 1, the local probe is attempted; if the
local probe also fails, the thrown error message embeds the local failure
message, and the backend's `stderr` whenever it is a non-blank string. -/
theorem ffprobeViaFrigate_return_code_one (first : JVal) (rest : List JVal)
    (url lmsg : String)
    (hrc : jsToNumber (JVal.get first "return_code") = some 1) :
    (ffprobeViaFrigate (some (.arr (first :: rest))) url (.error lmsg)).1 = true ∧
    ∃ m, (ffprobeViaFrigate (some (.arr (first :: rest))) url (.error lmsg)).2 = .error m ∧
      lmsg.data <:+: m.data ∧
      ∀ s, JVal.get first "stderr" = some (.str s) → s.trim ≠ "" →
        (s.trim).data <:+: m.data := by
  have hc : jsToNumber (jGet (some first) "return_code") = some 1 := by
    simp [jGet, hrc]
  refine ⟨by simp [ffprobeViaFrigate, hc], ?_⟩
  refine ⟨"Frigate ffprobe failed (return_code=1) for " ++ url ++
      (match jGet (first :: rest).head? "stderr" with
        | some (.str s) => if s.trim != "" then ": " ++ s.trim else ""
        | _ => "") ++ ". Local ffprobe fallback failed: " ++ lmsg, ?_, ?_, ?_⟩
  · simp [ffprobeViaFrigate, hc]
  · simp only [String.data_append]
    exact (List.suffix_append _ _).isInfix
  · intro s hs hne
    have hs' : jGet (first :: rest).head? "stderr" = some (.str s) := by
      simp [jGet, hs]
    rw [hs']
    have hbne : (s.trim != "") = true := by simp [hne]
    simp only [hbne, if_true]
    refine ⟨("Frigate ffprobe failed (return_code=1) for " ++ url ++ ": ").data,
      (". Local ffprobe fallback failed: " ++ lmsg).data, ?_⟩
    simp [String.data_append, List.append_assoc]

theorem ffprobeViaFrigate_return_code_one_witness :
    (ffprobeViaFrigate
        (some (.arr [.obj [("return_code", .num 1), ("stderr", .str "no such file")]]))
        "rtsp://cam/high" (.error "spawn ffprobe ENOENT")).1 = true ∧
    ∃ m, (ffprobeViaFrigate
        (some (.arr [.obj [("return_code", .num 1), ("stderr", .str "no such file")]]))
        "rtsp://cam/high" (.error "spawn ffprobe ENOENT")).2 = .error m ∧
      ("spawn ffprobe ENOENT").data <:+: m.data ∧
      ∀ s, JVal.get (.obj [("return_code", .num 1), ("stderr", .str "no such file")])
          "stderr" = some (.str s) → s.trim ≠ "" → (s.trim).data <:+: m.data :=
  ffprobeViaFrigate_return_code_one
    (.obj [("return_code", .num 1), ("stderr", .str "no such file")]) []
    "rtsp://cam/high" "spawn ffprobe ENOENT" rfl

theorem locatePayload_unmatched (odata : Option JVal) (url : String)
    (h : matchesKnownShape odata url = false) :
    locatePayload odata url = .obj [] := by
  cases odata with
  | none => rfl
  | some d =>
    simp only [matchesKnownShape, Bool.and_eq_false_iff, Bool.or_eq_false_iff] at h
    rcases h with h | h
    · simp [locatePayload, h]
    · obtain ⟨⟨⟨⟨⟨⟨⟨⟨⟨⟨h1, h2⟩, h3⟩, h4⟩, h5⟩, h6a⟩, h6b⟩, h6c⟩, h7a⟩, h7b⟩, h7c⟩ := h
      by_cases ht : jTruthy (some d) = true <;>
        simp [locatePayload, ht, h1, h2, h3, h4, h5, h6a, h6b, h6c, h7a, h7b, h7c]

/-- The summary with every format/video/audio metadata field absent (only the
probed url and its scheme are filled in). -/
def emptySummary (url : String) : FfprobeSummary :=
  { url := url
    protocol := jsSchemeOf url
    format := ⟨none, none, none, none⟩
    video := ⟨none, none, none, none, none, none, none⟩
    audio := ⟨none, none, none, none⟩ }

/-- The summary produced from an empty located payload: every format, video
and audio field is absent. -/
theorem summarize_empty (url : String) :
    summarize (.obj []) url = emptySummary url := rfl

/-- C9: on a response carrying no definitive failure signal and matching none
of the known envelope shapes, the normalization returns normally (no local
fallback, no thrown error) with a summary whose format/video/audio metadata
fields are all absent. -/
theorem ffprobeViaFrigate_unrecognized_shape (resData : Option JVal) (url : String)
    (localProbe : Except String JVal)
    (hnf : hasFailureSignal resData = false)
    (hnm : matchesKnownShape resData url = false) :
    ffprobeViaFrigate resData url localProbe = (false, .ok (emptySummary url)) := by
  have hloc := locatePayload_unmatched resData url hnm
  cases resData with
  | none => simp [ffprobeViaFrigate, hloc, summarize_empty]
  | some d =>
    cases d with
    | arr xs =>
      simp only [hasFailureSignal] at hnf
      have hc : ¬ jsToNumber (jGet xs.head? "return_code") = some 1 := by
        simpa using hnf
      simp [ffprobeViaFrigate, hc, hloc, summarize_empty]
    | null => simp [ffprobeViaFrigate, hloc, summarize_empty]
    | bool b => simp [ffprobeViaFrigate, hloc, summarize_empty]
    | num n => simp [ffprobeViaFrigate, hloc, summarize_empty]
    | str s => simp [ffprobeViaFrigate, hloc, summarize_empty]
    | obj fs => simp [ffprobeViaFrigate, hloc, summarize_empty]

theorem ffprobeViaFrigate_unrecognized_shape_witness :
    ffprobeViaFrigate (some (.obj [("status", .str "ok")])) "rtsp://cam/high"
        (.ok (.obj [])) =
      (false, .ok (emptySummary "rtsp://cam/high")) :=
  ffprobeViaFrigate_unrecognized_shape (some (.obj [("status", .str "ok")]))
    "rtsp://cam/high" (.ok (.obj [])) rfl rfl

/-! ## Stream discovery (src/camera.ts lines 313-404) -/

/-- JS `String.prototype.includes` over character lists. -/
def listIsInfixOf : List Char → List Char → Bool
  | n, [] => n.isEmpty
  | n, hay@(_ :: t) => n.isPrefixOf hay || listIsInfixOf n t

/-- `hay.includes(needle)`. -/
def strIncludes (hay needle : String) : Bool :=
  listIsInfixOf needle.data hay.data

/-- `source: 'go2rtc' | 'input'` of a `ConfiguredStreamProbe`
(src/camera.ts line 39); `go2rtc` is the relayed classification. -/
inductive StreamSource where
  | go2rtc
  | input
deriving Repr, DecidableEq

/-- `ConfiguredStreamProbe` (src/camera.ts lines 35-45). -/
structure ConfiguredStreamProbe where
  cameraName : Option String
  streamName : String
  streamId : String
  source : StreamSource
  url : String
  roles : Option (List String)
  probedAt : Nat
  ffprobe : Option FfprobeSummary
  error : Option String
deriving Repr, DecidableEq

/-- A configured ffmpeg input: either a bare string or an object with an
optional `path` (src/camera.ts line 341). -/
inductive ConfigInput where
  | str (s : String)
  | obj (path : Option String)
deriving Repr, DecidableEq

/-- Path extraction from an input (src/camera.ts line 341). -/
def inputPath : ConfigInput → Option String
  | .str s => some s
  | .obj p => p

/-- The descriptor pushed on a relay match (src/camera.ts lines 356-365). -/
def relayDescriptor (baseGo2rtcUrl cameraName g : String) (now index : Nat) :
    ConfiguredStreamProbe :=
  { cameraName := some cameraName
    streamName := g
    streamId := "stream_" ++ toString (index + 1)
    source := .go2rtc
    url := baseGo2rtcUrl ++ "/" ++ g
    roles := none
    probedAt := now
    ffprobe := none
    error := none }

/-- The descriptor pushed with no relay match (src/camera.ts lines 366-375). -/
def directDescriptor (cameraName path : String) (now index : Nat) :
    ConfiguredStreamProbe :=
  { cameraName := some cameraName
    streamName := "Stream " ++ toString (index + 1)
    streamId := "stream_" ++ toString (index + 1)
    source := .input
    url := path
    roles := none
    probedAt := now
    ffprobe := none
    error := none }

/-- Per-input classification of the discovery loop (src/camera.ts lines
338-380): an input with a path is relayed (`go2rtc`) when the path contains
`/name` or `:name` for some relay stream name (the `.some` callback renames
`streamName` to the first match), in which case the url is rewritten to
`{baseGo2rtcUrl}/{streamName}`; otherwise it stays `input` with the original
path as url.  An input without a path yields no descriptor. -/
def classifyInput (go2rtcStreamNames : List String) (baseGo2rtcUrl cameraName : String)
    (now index : Nat) (input : ConfigInput) : Option ConfiguredStreamProbe :=
  match inputPath input with
  | none => none
  | some path =>
    match go2rtcStreamNames.find? (fun g =>
        strIncludes path ("/" ++ g) || strIncludes path (":" ++ g)) with
    | some g => some (relayDescriptor baseGo2rtcUrl cameraName g now index)
    | none => some (directDescriptor cameraName path now index)

/-- Split a character list on a separator (JS `path.split('/')`). -/
def splitOnChar (sep : Char) : List Char → List (List Char)
  | [] => [[]]
  | c :: t =>
    match splitOnChar sep t, decide (c = sep) with
    | r, true => [] :: r
    | h :: t', false => (c :: h) :: t'
    | [], false => [[c]]

/-- The relayed condition as the claim words it: the path contains a relay
stream name as a complete `/`-delimited path segment, or as a port-style
colon-adjacent segment (`name:port` or `host:name`).  Stated from the claim
for comparison with the source's substring test. -/
def specSegmentRelayMatch (names : List String) (path : String) : Bool :=
  names.any (fun g =>
    (splitOnChar '/' path.data).any (fun seg =>
      seg == g.data || (g.data ++ [':']).isPrefixOf seg || ([':'] ++ g.data).isSuffixOf seg))

/-- C6 counterexample: with relay registry `["sub"]`, the input path
`rtsp://cam/subzero` does not contain `sub` as a path segment (nor with a
port adjacency), yet the code classifies it as relayed (the substring test
`path.includes("/sub")` fires inside `subzero`), renames the stream and
rewrites the url — so the claimed "exactly when" equivalence fails. -/
theorem discovery_relay_classification_counterexample :
    classifyInput ["sub"] "rtsp://relay:8554" "cam" 0 0 (.str "rtsp://cam/subzero")
      = some { cameraName := some "cam"
               streamName := "sub"
               streamId := "stream_1"
               source := .go2rtc
               url := "rtsp://relay:8554/sub"
               roles := none
               probedAt := 0
               ffprobe := none
               error := none } ∧
    specSegmentRelayMatch ["sub"] "rtsp://cam/subzero" = false := by
  constructor
  · decide
  · decide

/-- C6 amended: an input with a path is classified relayed exactly when the
path contains, for some relay-registry name `g`, the substring `"/" ++ g` or
`":" ++ g` (the name preceded by a slash or a colon, not necessarily as a
complete delimited segment); on match the descriptor's `streamName` is a
matching registry name and its url is `{baseGo2rtcUrl}/{streamName}`; with no
match the input keeps its original path as url under the default stream
name. -/
theorem discovery_relay_classification
    (names : List String) (base cam path : String) (now index : Nat) :
    ((∃ d, classifyInput names base cam now index (.str path) = some d ∧
        d.source = .go2rtc) ↔
      names.any (fun g =>
        strIncludes path ("/" ++ g) || strIncludes path (":" ++ g)) = true) ∧
    (∀ d, classifyInput names base cam now index (.str path) = some d →
      d.source = .go2rtc →
      d.streamName ∈ names ∧
      (strIncludes path ("/" ++ d.streamName) ||
        strIncludes path (":" ++ d.streamName)) = true ∧
      d.url = base ++ "/" ++ d.streamName) ∧
    (names.any (fun g =>
        strIncludes path ("/" ++ g) || strIncludes path (":" ++ g)) = false →
      classifyInput names base cam now index (.str path)
        = some { cameraName := some cam
                 streamName := "Stream " ++ toString (index + 1)
                 streamId := "stream_" ++ toString (index + 1)
                 source := .input
                 url := path
                 roles := none
                 probedAt := now
                 ffprobe := none
                 error := none }) := by
  refine ⟨?_, ?_, ?_⟩
  · constructor
    · rintro ⟨d, hd, hsrc⟩
      cases hf : names.find? (fun g =>
          strIncludes path ("/" ++ g) || strIncludes path (":" ++ g)) with
      | none =>
        rw [classifyInput.eq_def] at hd
        simp only [inputPath, hf, Option.some.injEq] at hd
        rw [← hd] at hsrc
        simp [directDescriptor] at hsrc
      | some g =>
        have hmem := List.mem_of_find?_eq_some hf
        have hp : (strIncludes path ("/" ++ g) || strIncludes path (":" ++ g)) = true := by
          have hq := List.find?_some hf
          exact hq
        exact List.any_eq_true.mpr ⟨g, hmem, hp⟩
    · intro hany
      cases hf : names.find? (fun g =>
          strIncludes path ("/" ++ g) || strIncludes path (":" ++ g)) with
      | none =>
        obtain ⟨g, hmem, hg⟩ := List.any_eq_true.mp hany
        exact absurd hg (List.find?_eq_none.mp hf g hmem)
      | some g =>
        have hd : classifyInput names base cam now index (.str path)
            = some (relayDescriptor base cam g now index) := by
          rw [classifyInput.eq_def]
          simp [inputPath, hf]
        exact ⟨relayDescriptor base cam g now index, hd, rfl⟩
  · intro d hd hsrc
    cases hf : names.find? (fun g =>
        strIncludes path ("/" ++ g) || strIncludes path (":" ++ g)) with
    | none =>
      rw [classifyInput.eq_def] at hd
      simp only [inputPath, hf, Option.some.injEq] at hd
      rw [← hd] at hsrc
      simp [directDescriptor] at hsrc
    | some g =>
      rw [classifyInput.eq_def] at hd
      simp only [inputPath, hf, Option.some.injEq] at hd
      have hmem := List.mem_of_find?_eq_some hf
      have hp : (strIncludes path ("/" ++ g) || strIncludes path (":" ++ g)) = true := by
        have hq := List.find?_some hf
        exact hq
      rw [← hd]
      exact ⟨hmem, hp, rfl⟩
  · intro hany
    have hf : names.find? (fun g =>
        strIncludes path ("/" ++ g) || strIncludes path (":" ++ g)) = none := by
      rw [List.find?_eq_none]
      intro g hmem hg
      rw [List.any_eq_false] at hany
      exact hany g hmem hg
    rw [classifyInput.eq_def]
    simp [inputPath, hf, directDescriptor]

theorem discovery_relay_classification_witness :
    (∃ d, classifyInput ["cam_sub"] "rtsp://relay:8554" "cam" 5 0 (.str "rtsp://cam/cam_sub")
        = some d ∧ d.source = .go2rtc) ∧
    classifyInput ["cam_sub"] "rtsp://relay:8554" "cam" 5 1 (.str "rtsp://cam/low")
      = some { cameraName := some "cam"
               streamName := "Stream " ++ toString (1 + 1)
               streamId := "stream_" ++ toString (1 + 1)
               source := .input
               url := "rtsp://cam/low"
               roles := none
               probedAt := 5
               ffprobe := none
               error := none } :=
  ⟨(discovery_relay_classification ["cam_sub"] "rtsp://relay:8554" "cam"
      "rtsp://cam/cam_sub" 5 0).1.mpr (by decide),
   (discovery_relay_classification ["cam_sub"] "rtsp://relay:8554" "cam"
      "rtsp://cam/low" 5 1).2.2 (by decide)⟩

/-! ## Configuration caches (`getConfiguration` / `getConfigurationRawJson`,
src/main.ts lines 239-290) and the discovery config phase
(src/camera.ts lines 320-336)

Only the parts of the Frigate configuration the discovery engine reads are
modelled: per-camera `ffmpeg.inputs` and the go2rtc relay stream names
(`Object.keys(go2rtc.streams)`). -/

structure FfmpegCfg where
  inputs : Option (List ConfigInput)
deriving Repr, DecidableEq

structure CamCfg where
  ffmpeg : Option FfmpegCfg
deriving Repr, DecidableEq

structure FrigCfg where
  cameras : Option (List (String × CamCfg))
  go2rtcStreamNames : Option (List String)
deriving Repr, DecidableEq

/-- The plugin's mutable configuration-cache fields (`config`,
`lastConfigFetch`, `configRawJson`, `lastConfigRawJsonFetch`); the timestamps
start out undefined. -/
structure ConfigCacheState where
  config : Option FrigCfg
  lastConfigFetch : Option Nat
  configRawJson : Option FrigCfg
  lastConfigRawJsonFetch : Option Nat
deriving Repr, DecidableEq

/-- `getConfiguration` (src/main.ts lines 239-258): serve the cached config
when not forced, present and younger than five minutes (an undefined
timestamp makes the comparison false, as `now < NaN` does); otherwise fetch.
`fetched` is the `/config` response payload, `tAfter` the `Date.now()` taken
after the fetch.  Returns the result, the new state, and whether the backend
was hit. -/
def getConfiguration (force : Bool) (now tAfter : Nat) (fetched : Option FrigCfg)
    (st : ConfigCacheState) : Option FrigCfg × ConfigCacheState × Bool :=
  if !force && st.config.isSome &&
      (match st.lastConfigFetch with
       | some t => decide (now < t + 1000 * 60 * 5)
       | none => false) then
    (st.config, st, false)
  else
    (fetched, { st with config := fetched, lastConfigFetch := some tAfter }, true)

/-- `getConfigurationRawJson` (src/main.ts lines 260-290): serve the cached
raw config when present and younger than five minutes (the timestamp defaults
to 0 via `?? 0`); otherwise fetch and parse.  There is no force parameter.
`fetchedRaw = none` covers both an empty response and a YAML parse failure,
which store `undefined` and still stamp the fetch time. -/
def getConfigurationRawJson (now tAfter : Nat) (fetchedRaw : Option FrigCfg)
    (st : ConfigCacheState) : Option FrigCfg × ConfigCacheState × Bool :=
  if st.configRawJson.isSome &&
      decide (now < st.lastConfigRawJsonFetch.getD 0 + 1000 * 60 * 5) then
    (st.configRawJson, st, false)
  else
    (fetchedRaw,
     { st with configRawJson := fetchedRaw, lastConfigRawJsonFetch := some tAfter }, true)

/-- The configuration phase of `discoverBestConfiguredStreamUrlsAndProbe`
(src/camera.ts lines 320-336): fetch or reuse the raw config (never forced),
fetch or reuse `/config` (forced through `options?.force`), and select the
camera entry preferring the raw config
(`raw?.cameras?.[name] ?? config?.cameras?.[name]`).  Returns the camera
config used for input enumeration, the new cache state, and whether each of
the two endpoints was actually hit. -/
def discoverConfigPhase (force : Bool) (cameraName : String)
    (nowRaw tRawAfter nowCfg tCfgAfter : Nat)
    (fetchedRaw fetchedCfg : Option FrigCfg) (st : ConfigCacheState) :
    Option CamCfg × ConfigCacheState × Bool × Bool :=
  match getConfigurationRawJson nowRaw tRawAfter fetchedRaw st with
  | (raw, st1, didFetchRaw) =>
    match getConfiguration force nowCfg tCfgAfter fetchedCfg st1 with
    | (config, st2, didFetchCfg) =>
      let cameraConfig :=
        match raw.bind (fun r => r.cameras.bind (fun cs => cs.lookup cameraName)) with
        | some c => some c
        | none => config.bind (fun r => r.cameras.bind (fun cs => cs.lookup cameraName))
      (cameraConfig, st2, didFetchRaw, didFetchCfg)

/-- C7 counterexample: the raw config was cached 1 second ago and contains the
camera with stale inputs; the backend now serves changed inputs on both
endpoints.  A forced discovery run still enumerates from the cached raw
entry: the camera configuration used is the cached one, the raw endpoint is
not re-fetched (third component `false`), even though `/config` is
re-fetched (fourth component `true`). -/
theorem forced_discovery_uses_cached_raw_counterexample :
    (discoverConfigPhase true "cam" 2000 2001 2002 2003
        (some ⟨some [("cam", ⟨some ⟨some [.str "rtsp://cam/new"]⟩⟩)], none⟩)
        (some ⟨some [("cam", ⟨some ⟨some [.str "rtsp://cam/new"]⟩⟩)], none⟩)
        ⟨none, none, some ⟨some [("cam", ⟨some ⟨some [.str "rtsp://cam/old"]⟩⟩)], none⟩,
          some 1000⟩)
      = (some ⟨some ⟨some [.str "rtsp://cam/old"]⟩⟩,
         ⟨some ⟨some [("cam", ⟨some ⟨some [.str "rtsp://cam/new"]⟩⟩)], none⟩, some 2003,
          some ⟨some [("cam", ⟨some ⟨some [.str "rtsp://cam/old"]⟩⟩)], none⟩, some 1000⟩,
         false, true) ∧
    (⟨some ⟨some [.str "rtsp://cam/old"]⟩⟩ : CamCfg)
      ≠ (⟨some ⟨some [.str "rtsp://cam/new"]⟩⟩ : CamCfg) := by
  constructor
  · rfl
  · decide

/-- C7 amended: a forced discovery run always re-fetches the `/config`
endpoint — `getConfiguration` with `force` ignores its TTL cache and returns
the freshly fetched payload — while the raw config has no force path and may
still be served from its own cache. -/
theorem forced_discovery_refetches_config (cameraName : String)
    (nowRaw tRawAfter nowCfg tCfgAfter : Nat)
    (fetchedRaw fetchedCfg : Option FrigCfg) (st : ConfigCacheState) :
    (discoverConfigPhase true cameraName nowRaw tRawAfter nowCfg tCfgAfter
        fetchedRaw fetchedCfg st).2.2.2 = true ∧
    (getConfiguration true nowCfg tCfgAfter fetchedCfg st).1 = fetchedCfg ∧
    (getConfiguration true nowCfg tCfgAfter fetchedCfg st).2.2 = true := by
  refine ⟨?_, by simp [getConfiguration], by simp [getConfiguration]⟩
  rcases hraw : getConfigurationRawJson nowRaw tRawAfter fetchedRaw st with ⟨raw, st1, dfr⟩
  simp [discoverConfigPhase, hraw, getConfiguration]

/-- `getDetectedStreamKey` (src/camera.ts lines 109-111). -/
def getDetectedStreamKey (streamId : String) : String :=
  "detectedStream:" ++ streamId ++ ":url"

/-- The `inputs.forEach` enumeration of the discovery run (src/camera.ts
lines 338-380): classify each input by position, collecting the pushed
descriptors and the `storage.setItem(urlKey, url)` writes for every input
that has a path. -/
def enumerateInputs (go2rtcStreamNames : List String) (baseGo2rtcUrl cameraName : String)
    (now : Nat) (inputs : List ConfigInput) :
    List ConfiguredStreamProbe × List (String × String) :=
  let ds := inputs.enum.filterMap (fun p =>
    classifyInput go2rtcStreamNames baseGo2rtcUrl cameraName now p.1 p.2)
  (ds, ds.map (fun d => (getDetectedStreamKey d.streamId, d.url)))

/-- Modelled from the spec: `mapLimit` from src/utils.ts (the file is not in
the snapshot).  Spec section 4.1: output ordering matches input ordering and
a failure inside one invocation is caught and recorded on that item without
aborting the batch — which is exactly what the probe loop at src/camera.ts
lines 383-392 relies on: each item gets `ffprobe` on success or `error` on
failure.  `probeFn` supplies the per-url probe outcome. -/
def probeAll (probeFn : String → Except String FfprobeSummary)
    (items : List ConfiguredStreamProbe) : List ConfiguredStreamProbe :=
  items.map (fun item =>
    match probeFn item.url with
    | .ok f => { item with ffprobe := some f }
    | .error m => { item with error := some m })

/-- Observable outcome of one discovery run: the returned (or thrown) value,
the urls probed, the list handed to `storeProbedStreams`, and the per-stream
url keys written during enumeration. -/
structure DiscoverOutcome where
  result : Except String (List ConfiguredStreamProbe)
  probedUrls : List String
  storedStreams : Option (List ConfiguredStreamProbe)
  storedUrlKeys : List (String × String)
deriving Repr, DecidableEq

/-- `discoverBestConfiguredStreamUrlsAndProbe` from the camera configuration
on (src/camera.ts lines 336-394): read `cameraConfig?.ffmpeg?.inputs` and run
`inputs.forEach` on it — when the optional chain is `undefined` the `forEach`
access throws a `TypeError` and nothing later in the function runs; otherwise
enumerate, probe and persist. -/
def discoverBestConfiguredStreamUrlsAndProbe
    (cameraConfig : Option CamCfg) (go2rtcStreamNames : List String)
    (baseGo2rtcUrl cameraName : String) (now : Nat)
    (probeFn : String → Except String FfprobeSummary) : DiscoverOutcome :=
  match (cameraConfig.bind (fun c => c.ffmpeg)).bind (fun f => f.inputs) with
  | none =>
    { result := .error "TypeError: Cannot read properties of undefined (reading 'forEach')"
      probedUrls := []
      storedStreams := none
      storedUrlKeys := [] }
  | some inputs =>
    match enumerateInputs go2rtcStreamNames baseGo2rtcUrl cameraName now inputs with
    | (ds, keys) =>
      let probed := probeAll probeFn ds
      { result := .ok probed
        probedUrls := ds.map (fun d => d.url)
        storedStreams := some probed
        storedUrlKeys := keys }

/-- C10: when the fetched configuration has no `ffmpeg.inputs` list for the
camera, the discovery run throws (it does not return an empty descriptor
list), no stream is probed and no descriptor list is persisted. -/
theorem discover_missing_inputs_throws
    (cameraConfig : Option CamCfg) (go2rtcStreamNames : List String)
    (baseGo2rtcUrl cameraName : String) (now : Nat)
    (probeFn : String → Except String FfprobeSummary)
    (h : (cameraConfig.bind (fun c => c.ffmpeg)).bind (fun f => f.inputs) = none) :
    ∃ m, discoverBestConfiguredStreamUrlsAndProbe cameraConfig go2rtcStreamNames
        baseGo2rtcUrl cameraName now probeFn
      = { result := .error m
          probedUrls := []
          storedStreams := none
          storedUrlKeys := [] } := by
  refine ⟨"TypeError: Cannot read properties of undefined (reading 'forEach')", ?_⟩
  simp [discoverBestConfiguredStreamUrlsAndProbe, h]

theorem discover_missing_inputs_throws_witness :
    ∃ m, discoverBestConfiguredStreamUrlsAndProbe (some ⟨none⟩) ["cam_sub"]
        "rtsp://relay:8554" "cam" 7 (fun _ => .error "unreachable")
      = { result := .error m
          probedUrls := []
          storedStreams := none
          storedUrlKeys := [] } :=
  discover_missing_inputs_throws (some ⟨none⟩) ["cam_sub"] "rtsp://relay:8554" "cam" 7
    (fun _ => .error "unreachable") rfl
